import Mathlib

/-!
Verification of the DEX decoder specification against the source of the
smali repository (Rust).  The byte-level parser of src/dex/parser is
shallowly embedded as a state monad over a list of bytes; the opcode and
format tables of src/dex/asm are embedded as inductive types with their
attribute functions; the section decoders of src/dex/types/id.rs are
embedded as monadic parse functions.  Machine integers are modelled as
Nat (bit patterns) with explicit two's-complement reinterpretation where
the source converts to a signed type.
-/

/-! ### The byte reader (src/dex/parser: state = seekable byte source) -/

/-- Parser state: the underlying byte source (a list of bytes, each < 256 in
well-formed inputs) together with the cursor position.  Models the
Read + Seek stream threaded through the Rust parser. -/
structure PState where
  data : List Nat
  pos : Nat
deriving DecidableEq, Repr

/-- Error outcomes of the embedded parser.  All Rust error values
(eyre reports, ParseError variants, panics of assert_eq) are collapsed
onto these tags; theorems only distinguish failure kinds, never messages. -/
inductive PErr where
  /-- A read past the end of the stream (read_exact / ReadBytesExt failure). -/
  | truncation
  /-- ParseError::BadUTF8 with the offending value and its offset in the string. -/
  | badUtf8 (value : Nat) (offset : Nat)
  /-- Any other eyre error (ensure!/bail!/unknown opcode/unknown format...). -/
  | generic
  /-- A Rust panic (the assert_eq! of assert_unused_byte in non-trace builds). -/
  | assertFail
  /-- Fuel exhaustion of the embedding; unreachable for the runs considered. -/
  | fuel
deriving DecidableEq, Repr

/-- The parse monad: state passing over PState with Except-style errors. -/
def PM (α : Type) : Type := PState → Except PErr (α × PState)

instance : Monad PM where
  pure a := fun s => .ok (a, s)
  bind m f := fun s =>
    match m s with
    | .ok (a, s') => f a s'
    | .error e => .error e

/-- Decidable equality of parse outcomes, for evaluating the embedded
parsers on concrete inputs inside proofs. -/
instance {ε α : Type} [DecidableEq ε] [DecidableEq α] : DecidableEq (Except ε α) := fun a b =>
  match a, b with
  | .error e, .error f =>
    if h : e = f then .isTrue (congrArg Except.error h)
    else .isFalse (fun c => h (Except.error.inj c))
  | .ok x, .ok y =>
    if h : x = y then .isTrue (congrArg Except.ok h)
    else .isFalse (fun c => h (Except.ok.inj c))
  | .error _, .ok _ => .isFalse (fun c => Except.noConfusion c)
  | .ok _, .error _ => .isFalse (fun c => Except.noConfusion c)

/-- Throw an error. -/
def perr {α : Type} (e : PErr) : PM α := fun _ => .error e

/-- ReadThings::u8: one byte at the cursor. -/
def pu8 : PM Nat := fun s =>
  match s.data.get? s.pos with
  | some b => .ok (b, ⟨s.data, s.pos + 1⟩)
  | none => .error .truncation

/-- ReadThings::u16, little endian. -/
def pu16 : PM Nat := do
  let a ← pu8
  let b ← pu8
  pure (a + 256 * b)

/-- ReadThings::u32, little endian. -/
def pu32 : PM Nat := do
  let a ← pu16
  let b ← pu16
  pure (a + 65536 * b)

/-- ReadThings::u64, little endian. -/
def pu64 : PM Nat := do
  let a ← pu32
  let b ← pu32
  pure (a + 4294967296 * b)

/-- Two's-complement reinterpretation of a w-bit pattern as a signed integer. -/
def sgn (w : Nat) (n : Nat) : Int :=
  if n < 2 ^ (w - 1) then (n : Int) else (n : Int) - 2 ^ w

/-- ReadThings::i32: a little-endian u32 pattern read as i32. -/
def pi32 : PM Int := do
  let n ← pu32
  pure (sgn 32 n)

/-- ReadThings::split_u8: (val & 0xf, val >> 4). -/
def psplitU8 : PM (Nat × Nat) := do
  let v ← pu8
  pure (v % 16, v / 16)

/-- Parser::get_offset (stream_position). -/
def pgetOffset : PM Nat := fun s => .ok (s.pos, s)

/-- Parser::set_offset (seek to absolute position). -/
def psetOffset (k : Nat) : PM Unit := fun s => .ok ((), ⟨s.data, k⟩)

/-- seek(SeekFrom::Current(-1)) as used by Instruction::parse. -/
def pseekBack1 : PM Unit := fun s => .ok ((), ⟨s.data, s.pos - 1⟩)

/-- Parser::align(n): advance the cursor to the next multiple of n
(a pure seek; no bytes are inspected). -/
def palign (n : Nat) : PM Unit := fun s =>
  if s.pos % n = 0 then .ok ((), s)
  else .ok ((), ⟨s.data, s.pos - s.pos % n + n⟩)

/-- Read::read into a scratch buffer of n bytes: a Cursor-style read that
copies min(n, remaining) bytes and never fails (used by CodeItem::parse
for its raw-instruction scratch vec, whose contents are discarded). -/
def pread (n : Nat) : PM Unit := fun s =>
  .ok ((), ⟨s.data, s.pos + min n (s.data.length - s.pos)⟩)

/-- read_exact into a buffer of n bytes: fails (leaving the model state at
the failure point) unless n bytes are available. -/
def preadExact : Nat → PM (List Nat)
  | 0 => pure []
  | n + 1 => do
    let b ← pu8
    let bs ← preadExact n
    pure (b :: bs)

/-- Parser::parse_list: n consecutive elements, no framing. -/
def parseListPM {α : Type} (p : PM α) : Nat → PM (List α)
  | 0 => pure []
  | n + 1 => do
    let x ← p
    let xs ← parseListPM p n
    pure (x :: xs)

/-- Little-endian value of a byte list (the value from_le_bytes gives on a
zero-initialized buffer whose low bytes were overwritten with this list). -/
def leVal : List Nat → Nat
  | [] => 0
  | b :: bs => b + 256 * leVal bs

/-- Modelled from the spec: the ULEB128 reader of section 4.1 (the Rust
ReadThings::uleb128 delegates to the external leb128 crate, whose source is
not part of this repository): read bytes while the continuation bit (bit 7)
is set, accumulate the 7-bit payloads little-end-first.  Returns the decoded
value and the number of bytes consumed. -/
def ulebCore : List Nat → Except PErr (Nat × Nat)
  | [] => .error .truncation
  | b :: rest =>
    if b % 256 < 128 then .ok (b % 256, 1)
    else
      match ulebCore rest with
      | .ok (v, n) => .ok (b % 256 - 128 + 128 * v, n + 1)
      | .error e => .error e

/-- Modelled from the spec: ReadThings::uleb128 — decode a ULEB128 at the
cursor and fail if the result does not fit into u32. -/
def puleb128 : PM Nat := fun s =>
  match ulebCore (s.data.drop s.pos) with
  | .ok (v, n) => if v < 2 ^ 32 then .ok (v, ⟨s.data, s.pos + n⟩) else .error .generic
  | .error e => .error e

/-- Modelled from the spec: the SLEB128 reader of section 4.1 (the Rust
ReadThings::sleb128 delegates to the external leb128 crate): like ULEB128 but
sign-extended from bit 6 of the final continuation-free byte. -/
def slebCore : List Nat → Except PErr (Int × Nat)
  | [] => .error .truncation
  | b :: rest =>
    if b % 256 < 128 then
      .ok (if b % 256 < 64 then ((b % 256 : Nat) : Int)
           else ((b % 256 : Nat) : Int) - 128, 1)
    else
      match slebCore rest with
      | .ok (v, n) => .ok ((((b % 256 - 128 : Nat)) : Int) + 128 * v, n + 1)
      | .error e => .error e

/-- Modelled from the spec: ReadThings::sleb128 — decode an SLEB128 at the
cursor and fail if the result does not fit into i32. -/
def psleb128 : PM Int := fun s =>
  match slebCore (s.data.drop s.pos) with
  | .ok (v, n) =>
    if -(2 ^ 31) ≤ v ∧ v < 2 ^ 31 then .ok (v, ⟨s.data, s.pos + n⟩) else .error .generic
  | .error e => .error e

/-! ### The instruction format table (src/dex/asm/format.rs) -/

/-- The Format enum of src/dex/asm/format.rs, in source order. -/
inductive Format where
  | Format10t
  | Format10x
  | Format11n
  | Format11x
  | Format12x
  | Format20bc
  | Format20t
  | Format21c
  | Format21ih
  | Format21lh
  | Format21s
  | Format21t
  | Format22b
  | Format22c
  | Format22cs
  | Format22s
  | Format22t
  | Format22x
  | Format23x
  | Format30t
  | Format31c
  | Format31i
  | Format31t
  | Format32x
  | Format35c
  | Format35mi
  | Format35ms
  | Format3rc
  | Format3rmi
  | Format3rms
  | Format45cc
  | Format4rcc
  | Format51l
  | ArrayPayload
  | PackedSwitchPayload
  | SparseSwitchPayload
  | UnresolvedOdexInstruction
deriving DecidableEq, Repr

/-- The size attribute generated by the EnumValues derive: the i8 values of
the enum_values(size = ...) annotations in src/dex/asm/format.rs. -/
def Format.size : Format → Int
  | .Format10t => 2
  | .Format10x => 2
  | .Format11n => 2
  | .Format11x => 2
  | .Format12x => 2
  | .Format20bc => 4
  | .Format20t => 4
  | .Format21c => 4
  | .Format21ih => 4
  | .Format21lh => 4
  | .Format21s => 4
  | .Format21t => 4
  | .Format22b => 4
  | .Format22c => 4
  | .Format22cs => 4
  | .Format22s => 4
  | .Format22t => 4
  | .Format22x => 4
  | .Format23x => 4
  | .Format30t => 6
  | .Format31c => 6
  | .Format31i => 6
  | .Format31t => 6
  | .Format32x => 6
  | .Format35c => 6
  | .Format35mi => 6
  | .Format35ms => 6
  | .Format3rc => 6
  | .Format3rmi => 6
  | .Format3rms => 6
  | .Format45cc => 8
  | .Format4rcc => 8
  | .Format51l => 10
  | .ArrayPayload => -1
  | .PackedSwitchPayload => -1
  | .SparseSwitchPayload => -1
  | .UnresolvedOdexInstruction => -1

/-- The payload attribute generated by the EnumValues derive: true exactly
for the variants annotated with enum_values(..., payload); every variant
without the annotation takes the Default (false) arm. -/
def Format.payload : Format → Bool
  | .ArrayPayload => true
  | .PackedSwitchPayload => true
  | .SparseSwitchPayload => true
  | _ => false

/-- The per-format size in 16-bit code units exactly as the claim (and
spec section 4.3) lists it; -1 for the three payload formats.  This is the
spec-side table, written from the claim text, to be compared with the
source-side Format.size. -/
def specFormatCodeUnits : Format → Int
  | .Format10t => 1
  | .Format10x => 1
  | .Format11n => 1
  | .Format11x => 1
  | .Format12x => 1
  | .Format20bc => 2
  | .Format20t => 2
  | .Format21c => 2
  | .Format21ih => 2
  | .Format21lh => 2
  | .Format21s => 2
  | .Format21t => 2
  | .Format22b => 2
  | .Format22c => 2
  | .Format22cs => 2
  | .Format22s => 2
  | .Format22t => 2
  | .Format22x => 2
  | .Format23x => 2
  | .Format30t => 3
  | .Format31c => 3
  | .Format31i => 3
  | .Format31t => 3
  | .Format32x => 3
  | .Format35c => 3
  | .Format35mi => 3
  | .Format35ms => 3
  | .Format3rc => 3
  | .Format3rmi => 3
  | .Format3rms => 3
  | .Format45cc => 4
  | .Format4rcc => 4
  | .Format51l => 5
  | .ArrayPayload => -1
  | .PackedSwitchPayload => -1
  | .SparseSwitchPayload => -1
  | .UnresolvedOdexInstruction => -1

/-! ### The opcode table (src/dex/asm/opcode.rs) -/

/-- The Dalvik opcode catalogue, one constructor per entry of the Rust `Opcode` enum
(src/dex/asm/opcode.rs), in source order. -/
inductive Opcode where
  | Nop
  | Move
  | MoveFrom16
  | Move16
  | MoveWide
  | MoveWideFrom16
  | MoveWide16
  | MoveObject
  | MoveObjectFrom16
  | MoveObject16
  | MoveResult
  | MoveResultWide
  | MoveResultObject
  | MoveException
  | ReturnVoid
  | Return
  | ReturnWide
  | ReturnObject
  | Const4
  | Const16
  | CONST
  | ConstHigh16
  | ConstWide16
  | ConstWide32
  | ConstWide
  | ConstWideHigh16
  | ConstString
  | ConstStringJumbo
  | ConstClass
  | MonitorEnter
  | MonitorExit
  | CheckCast
  | InstanceOf
  | ArrayLength
  | NewInstance
  | NewArray
  | FilledNewArray
  | FilledNewArrayRange
  | FillArrayData
  | THROW
  | GOTO
  | Goto16
  | Goto32
  | PackedSwitch
  | SparseSwitch
  | CmplFloat
  | CmpgFloat
  | CmplDouble
  | CmpgDouble
  | CmpLong
  | IfEq
  | IfNe
  | IfLt
  | IfGe
  | IfGt
  | IfLe
  | IfEqz
  | IfNez
  | IfLtz
  | IfGez
  | IfGtz
  | IfLez
  | AGET
  | AgetWide
  | AgetObject
  | AgetBoolean
  | AgetByte
  | AgetChar
  | AgetShort
  | APUT
  | AputWide
  | AputObject
  | AputBoolean
  | AputByte
  | AputChar
  | AputShort
  | IGET
  | IgetWide
  | IgetObject
  | IgetBoolean
  | IgetByte
  | IgetChar
  | IgetShort
  | IPUT
  | IputWide
  | IputObject
  | IputBoolean
  | IputByte
  | IputChar
  | IputShort
  | SGET
  | SgetWide
  | SgetObject
  | SgetBoolean
  | SgetByte
  | SgetChar
  | SgetShort
  | SPUT
  | SputWide
  | SputObject
  | SputBoolean
  | SputByte
  | SputChar
  | SputShort
  | InvokeVirtual
  | InvokeSuper
  | InvokeDirect
  | InvokeStatic
  | InvokeInterface
  | InvokeVirtualRange
  | InvokeSuperRange
  | InvokeDirectRange
  | InvokeStaticRange
  | InvokeInterfaceRange
  | NegInt
  | NotInt
  | NegLong
  | NotLong
  | NegFloat
  | NegDouble
  | IntToLong
  | IntToFloat
  | IntToDouble
  | LongToInt
  | LongToFloat
  | LongToDouble
  | FloatToInt
  | FloatToLong
  | FloatToDouble
  | DoubleToInt
  | DoubleToLong
  | DoubleToFloat
  | IntToByte
  | IntToChar
  | IntToShort
  | AddInt
  | SubInt
  | MulInt
  | DivInt
  | RemInt
  | AndInt
  | OrInt
  | XorInt
  | ShlInt
  | ShrInt
  | UshrInt
  | AddLong
  | SubLong
  | MulLong
  | DivLong
  | RemLong
  | AndLong
  | OrLong
  | XorLong
  | ShlLong
  | ShrLong
  | UshrLong
  | AddFloat
  | SubFloat
  | MulFloat
  | DivFloat
  | RemFloat
  | AddDouble
  | SubDouble
  | MulDouble
  | DivDouble
  | RemDouble
  | AddInt2addr
  | SubInt2addr
  | MulInt2addr
  | DivInt2addr
  | RemInt2addr
  | AndInt2addr
  | OrInt2addr
  | XorInt2addr
  | ShlInt2addr
  | ShrInt2addr
  | UshrInt2addr
  | AddLong2addr
  | SubLong2addr
  | MulLong2addr
  | DivLong2addr
  | RemLong2addr
  | AndLong2addr
  | OrLong2addr
  | XorLong2addr
  | ShlLong2addr
  | ShrLong2addr
  | UshrLong2addr
  | AddFloat2addr
  | SubFloat2addr
  | MulFloat2addr
  | DivFloat2addr
  | RemFloat2addr
  | AddDouble2addr
  | SubDouble2addr
  | MulDouble2addr
  | DivDouble2addr
  | RemDouble2addr
  | AddIntLit16
  | RsubInt
  | MulIntLit16
  | DivIntLit16
  | RemIntLit16
  | AndIntLit16
  | OrIntLit16
  | XorIntLit16
  | AddIntLit8
  | RsubIntLit8
  | MulIntLit8
  | DivIntLit8
  | RemIntLit8
  | AndIntLit8
  | OrIntLit8
  | XorIntLit8
  | ShlIntLit8
  | ShrIntLit8
  | UshrIntLit8
  | IgetVolatile
  | IputVolatile
  | SgetVolatile
  | SputVolatile
  | IgetObjectVolatile
  | IgetWideVolatile
  | IputWideVolatile
  | SgetWideVolatile
  | SputWideVolatile
  | ThrowVerificationError
  | ExecuteInline
  | ExecuteInlineRange
  | InvokeDirectEmpty
  | InvokeObjectInitRange
  | ReturnVoidNoBarrier
  | InvokeSuperQuick
  | InvokeSuperQuickRange
  | IputObjectVolatile
  | SgetObjectVolatile
  | SputObjectVolatile
  | PackedSwitchPayload
  | SparseSwitchPayload
  | ArrayPayload
  | InvokePolymorphic
  | InvokePolymorphicRange
  | InvokeCustom
  | InvokeCustomRange
  | ConstMethodHandle
  | ConstMethodType
deriving DecidableEq, Repr

/-- The `value` attribute of each opcode (its numeric value, u16 in the source). -/
def Opcode.value : Opcode → Nat
  | .Nop => 0x00
  | .Move => 0x01
  | .MoveFrom16 => 0x02
  | .Move16 => 0x03
  | .MoveWide => 0x04
  | .MoveWideFrom16 => 0x05
  | .MoveWide16 => 0x06
  | .MoveObject => 0x07
  | .MoveObjectFrom16 => 0x08
  | .MoveObject16 => 0x09
  | .MoveResult => 0x0a
  | .MoveResultWide => 0x0b
  | .MoveResultObject => 0x0c
  | .MoveException => 0x0d
  | .ReturnVoid => 0x0e
  | .Return => 0x0f
  | .ReturnWide => 0x10
  | .ReturnObject => 0x11
  | .Const4 => 0x12
  | .Const16 => 0x13
  | .CONST => 0x14
  | .ConstHigh16 => 0x15
  | .ConstWide16 => 0x16
  | .ConstWide32 => 0x17
  | .ConstWide => 0x18
  | .ConstWideHigh16 => 0x19
  | .ConstString => 0x1a
  | .ConstStringJumbo => 0x1b
  | .ConstClass => 0x1c
  | .MonitorEnter => 0x1d
  | .MonitorExit => 0x1e
  | .CheckCast => 0x1f
  | .InstanceOf => 0x20
  | .ArrayLength => 0x21
  | .NewInstance => 0x22
  | .NewArray => 0x23
  | .FilledNewArray => 0x24
  | .FilledNewArrayRange => 0x25
  | .FillArrayData => 0x26
  | .THROW => 0x27
  | .GOTO => 0x28
  | .Goto16 => 0x29
  | .Goto32 => 0x2a
  | .PackedSwitch => 0x2b
  | .SparseSwitch => 0x2c
  | .CmplFloat => 0x2d
  | .CmpgFloat => 0x2e
  | .CmplDouble => 0x2f
  | .CmpgDouble => 0x30
  | .CmpLong => 0x31
  | .IfEq => 0x32
  | .IfNe => 0x33
  | .IfLt => 0x34
  | .IfGe => 0x35
  | .IfGt => 0x36
  | .IfLe => 0x37
  | .IfEqz => 0x38
  | .IfNez => 0x39
  | .IfLtz => 0x3a
  | .IfGez => 0x3b
  | .IfGtz => 0x3c
  | .IfLez => 0x3d
  | .AGET => 0x44
  | .AgetWide => 0x45
  | .AgetObject => 0x46
  | .AgetBoolean => 0x47
  | .AgetByte => 0x48
  | .AgetChar => 0x49
  | .AgetShort => 0x4a
  | .APUT => 0x4b
  | .AputWide => 0x4c
  | .AputObject => 0x4d
  | .AputBoolean => 0x4e
  | .AputByte => 0x4f
  | .AputChar => 0x50
  | .AputShort => 0x51
  | .IGET => 0x52
  | .IgetWide => 0x53
  | .IgetObject => 0x54
  | .IgetBoolean => 0x55
  | .IgetByte => 0x56
  | .IgetChar => 0x57
  | .IgetShort => 0x58
  | .IPUT => 0x59
  | .IputWide => 0x5a
  | .IputObject => 0x5b
  | .IputBoolean => 0x5c
  | .IputByte => 0x5d
  | .IputChar => 0x5e
  | .IputShort => 0x5f
  | .SGET => 0x60
  | .SgetWide => 0x61
  | .SgetObject => 0x62
  | .SgetBoolean => 0x63
  | .SgetByte => 0x64
  | .SgetChar => 0x65
  | .SgetShort => 0x66
  | .SPUT => 0x67
  | .SputWide => 0x68
  | .SputObject => 0x69
  | .SputBoolean => 0x6a
  | .SputByte => 0x6b
  | .SputChar => 0x6c
  | .SputShort => 0x6d
  | .InvokeVirtual => 0x6e
  | .InvokeSuper => 0x6f
  | .InvokeDirect => 0x70
  | .InvokeStatic => 0x71
  | .InvokeInterface => 0x72
  | .InvokeVirtualRange => 0x74
  | .InvokeSuperRange => 0x75
  | .InvokeDirectRange => 0x76
  | .InvokeStaticRange => 0x77
  | .InvokeInterfaceRange => 0x78
  | .NegInt => 0x7b
  | .NotInt => 0x7c
  | .NegLong => 0x7d
  | .NotLong => 0x7e
  | .NegFloat => 0x7f
  | .NegDouble => 0x80
  | .IntToLong => 0x81
  | .IntToFloat => 0x82
  | .IntToDouble => 0x83
  | .LongToInt => 0x84
  | .LongToFloat => 0x85
  | .LongToDouble => 0x86
  | .FloatToInt => 0x87
  | .FloatToLong => 0x88
  | .FloatToDouble => 0x89
  | .DoubleToInt => 0x8a
  | .DoubleToLong => 0x8b
  | .DoubleToFloat => 0x8c
  | .IntToByte => 0x8d
  | .IntToChar => 0x8e
  | .IntToShort => 0x8f
  | .AddInt => 0x90
  | .SubInt => 0x91
  | .MulInt => 0x92
  | .DivInt => 0x93
  | .RemInt => 0x94
  | .AndInt => 0x95
  | .OrInt => 0x96
  | .XorInt => 0x97
  | .ShlInt => 0x98
  | .ShrInt => 0x99
  | .UshrInt => 0x9a
  | .AddLong => 0x9b
  | .SubLong => 0x9c
  | .MulLong => 0x9d
  | .DivLong => 0x9e
  | .RemLong => 0x9f
  | .AndLong => 0xa0
  | .OrLong => 0xa1
  | .XorLong => 0xa2
  | .ShlLong => 0xa3
  | .ShrLong => 0xa4
  | .UshrLong => 0xa5
  | .AddFloat => 0xa6
  | .SubFloat => 0xa7
  | .MulFloat => 0xa8
  | .DivFloat => 0xa9
  | .RemFloat => 0xaa
  | .AddDouble => 0xab
  | .SubDouble => 0xac
  | .MulDouble => 0xad
  | .DivDouble => 0xae
  | .RemDouble => 0xaf
  | .AddInt2addr => 0xb0
  | .SubInt2addr => 0xb1
  | .MulInt2addr => 0xb2
  | .DivInt2addr => 0xb3
  | .RemInt2addr => 0xb4
  | .AndInt2addr => 0xb5
  | .OrInt2addr => 0xb6
  | .XorInt2addr => 0xb7
  | .ShlInt2addr => 0xb8
  | .ShrInt2addr => 0xb9
  | .UshrInt2addr => 0xba
  | .AddLong2addr => 0xbb
  | .SubLong2addr => 0xbc
  | .MulLong2addr => 0xbd
  | .DivLong2addr => 0xbe
  | .RemLong2addr => 0xbf
  | .AndLong2addr => 0xc0
  | .OrLong2addr => 0xc1
  | .XorLong2addr => 0xc2
  | .ShlLong2addr => 0xc3
  | .ShrLong2addr => 0xc4
  | .UshrLong2addr => 0xc5
  | .AddFloat2addr => 0xc6
  | .SubFloat2addr => 0xc7
  | .MulFloat2addr => 0xc8
  | .DivFloat2addr => 0xc9
  | .RemFloat2addr => 0xca
  | .AddDouble2addr => 0xcb
  | .SubDouble2addr => 0xcc
  | .MulDouble2addr => 0xcd
  | .DivDouble2addr => 0xce
  | .RemDouble2addr => 0xcf
  | .AddIntLit16 => 0xd0
  | .RsubInt => 0xd1
  | .MulIntLit16 => 0xd2
  | .DivIntLit16 => 0xd3
  | .RemIntLit16 => 0xd4
  | .AndIntLit16 => 0xd5
  | .OrIntLit16 => 0xd6
  | .XorIntLit16 => 0xd7
  | .AddIntLit8 => 0xd8
  | .RsubIntLit8 => 0xd9
  | .MulIntLit8 => 0xda
  | .DivIntLit8 => 0xdb
  | .RemIntLit8 => 0xdc
  | .AndIntLit8 => 0xdd
  | .OrIntLit8 => 0xde
  | .XorIntLit8 => 0xdf
  | .ShlIntLit8 => 0xe0
  | .ShrIntLit8 => 0xe1
  | .UshrIntLit8 => 0xe2
  | .IgetVolatile => 0xe3
  | .IputVolatile => 0xe4
  | .SgetVolatile => 0xe5
  | .SputVolatile => 0xe6
  | .IgetObjectVolatile => 0xe7
  | .IgetWideVolatile => 0xe8
  | .IputWideVolatile => 0xe9
  | .SgetWideVolatile => 0xea
  | .SputWideVolatile => 0xeb
  | .ThrowVerificationError => 0xed
  | .ExecuteInline => 0xee
  | .ExecuteInlineRange => 0xef
  | .InvokeDirectEmpty => 0xf0
  | .InvokeObjectInitRange => 0xf0
  | .ReturnVoidNoBarrier => 0x73
  | .InvokeSuperQuick => 0xfa
  | .InvokeSuperQuickRange => 0xfb
  | .IputObjectVolatile => 0xfc
  | .SgetObjectVolatile => 0xfd
  | .SputObjectVolatile => 0xfe
  | .PackedSwitchPayload => 0x100
  | .SparseSwitchPayload => 0x200
  | .ArrayPayload => 0x300
  | .InvokePolymorphic => 0xfa
  | .InvokePolymorphicRange => 0xfb
  | .InvokeCustom => 0xfc
  | .InvokeCustomRange => 0xfd
  | .ConstMethodHandle => 0xfe
  | .ConstMethodType => 0xff

/-- The `format` attribute of each opcode (instruction format tag). -/
def Opcode.format : Opcode → Format
  | .Nop => .Format10x
  | .Move => .Format12x
  | .MoveFrom16 => .Format22x
  | .Move16 => .Format32x
  | .MoveWide => .Format12x
  | .MoveWideFrom16 => .Format22x
  | .MoveWide16 => .Format32x
  | .MoveObject => .Format12x
  | .MoveObjectFrom16 => .Format22x
  | .MoveObject16 => .Format32x
  | .MoveResult => .Format11x
  | .MoveResultWide => .Format11x
  | .MoveResultObject => .Format11x
  | .MoveException => .Format11x
  | .ReturnVoid => .Format10x
  | .Return => .Format11x
  | .ReturnWide => .Format11x
  | .ReturnObject => .Format11x
  | .Const4 => .Format11n
  | .Const16 => .Format21s
  | .CONST => .Format31i
  | .ConstHigh16 => .Format21ih
  | .ConstWide16 => .Format21s
  | .ConstWide32 => .Format31i
  | .ConstWide => .Format51l
  | .ConstWideHigh16 => .Format21lh
  | .ConstString => .Format21c
  | .ConstStringJumbo => .Format31c
  | .ConstClass => .Format21c
  | .MonitorEnter => .Format11x
  | .MonitorExit => .Format11x
  | .CheckCast => .Format21c
  | .InstanceOf => .Format22c
  | .ArrayLength => .Format12x
  | .NewInstance => .Format21c
  | .NewArray => .Format22c
  | .FilledNewArray => .Format35c
  | .FilledNewArrayRange => .Format3rc
  | .FillArrayData => .Format31t
  | .THROW => .Format11x
  | .GOTO => .Format10t
  | .Goto16 => .Format20t
  | .Goto32 => .Format30t
  | .PackedSwitch => .Format31t
  | .SparseSwitch => .Format31t
  | .CmplFloat => .Format23x
  | .CmpgFloat => .Format23x
  | .CmplDouble => .Format23x
  | .CmpgDouble => .Format23x
  | .CmpLong => .Format23x
  | .IfEq => .Format22t
  | .IfNe => .Format22t
  | .IfLt => .Format22t
  | .IfGe => .Format22t
  | .IfGt => .Format22t
  | .IfLe => .Format22t
  | .IfEqz => .Format21t
  | .IfNez => .Format21t
  | .IfLtz => .Format21t
  | .IfGez => .Format21t
  | .IfGtz => .Format21t
  | .IfLez => .Format21t
  | .AGET => .Format23x
  | .AgetWide => .Format23x
  | .AgetObject => .Format23x
  | .AgetBoolean => .Format23x
  | .AgetByte => .Format23x
  | .AgetChar => .Format23x
  | .AgetShort => .Format23x
  | .APUT => .Format23x
  | .AputWide => .Format23x
  | .AputObject => .Format23x
  | .AputBoolean => .Format23x
  | .AputByte => .Format23x
  | .AputChar => .Format23x
  | .AputShort => .Format23x
  | .IGET => .Format22c
  | .IgetWide => .Format22c
  | .IgetObject => .Format22c
  | .IgetBoolean => .Format22c
  | .IgetByte => .Format22c
  | .IgetChar => .Format22c
  | .IgetShort => .Format22c
  | .IPUT => .Format22c
  | .IputWide => .Format22c
  | .IputObject => .Format22c
  | .IputBoolean => .Format22c
  | .IputByte => .Format22c
  | .IputChar => .Format22c
  | .IputShort => .Format22c
  | .SGET => .Format21c
  | .SgetWide => .Format21c
  | .SgetObject => .Format21c
  | .SgetBoolean => .Format21c
  | .SgetByte => .Format21c
  | .SgetChar => .Format21c
  | .SgetShort => .Format21c
  | .SPUT => .Format21c
  | .SputWide => .Format21c
  | .SputObject => .Format21c
  | .SputBoolean => .Format21c
  | .SputByte => .Format21c
  | .SputChar => .Format21c
  | .SputShort => .Format21c
  | .InvokeVirtual => .Format35c
  | .InvokeSuper => .Format35c
  | .InvokeDirect => .Format35c
  | .InvokeStatic => .Format35c
  | .InvokeInterface => .Format35c
  | .InvokeVirtualRange => .Format3rc
  | .InvokeSuperRange => .Format3rc
  | .InvokeDirectRange => .Format3rc
  | .InvokeStaticRange => .Format3rc
  | .InvokeInterfaceRange => .Format3rc
  | .NegInt => .Format12x
  | .NotInt => .Format12x
  | .NegLong => .Format12x
  | .NotLong => .Format12x
  | .NegFloat => .Format12x
  | .NegDouble => .Format12x
  | .IntToLong => .Format12x
  | .IntToFloat => .Format12x
  | .IntToDouble => .Format12x
  | .LongToInt => .Format12x
  | .LongToFloat => .Format12x
  | .LongToDouble => .Format12x
  | .FloatToInt => .Format12x
  | .FloatToLong => .Format12x
  | .FloatToDouble => .Format12x
  | .DoubleToInt => .Format12x
  | .DoubleToLong => .Format12x
  | .DoubleToFloat => .Format12x
  | .IntToByte => .Format12x
  | .IntToChar => .Format12x
  | .IntToShort => .Format12x
  | .AddInt => .Format23x
  | .SubInt => .Format23x
  | .MulInt => .Format23x
  | .DivInt => .Format23x
  | .RemInt => .Format23x
  | .AndInt => .Format23x
  | .OrInt => .Format23x
  | .XorInt => .Format23x
  | .ShlInt => .Format23x
  | .ShrInt => .Format23x
  | .UshrInt => .Format23x
  | .AddLong => .Format23x
  | .SubLong => .Format23x
  | .MulLong => .Format23x
  | .DivLong => .Format23x
  | .RemLong => .Format23x
  | .AndLong => .Format23x
  | .OrLong => .Format23x
  | .XorLong => .Format23x
  | .ShlLong => .Format23x
  | .ShrLong => .Format23x
  | .UshrLong => .Format23x
  | .AddFloat => .Format23x
  | .SubFloat => .Format23x
  | .MulFloat => .Format23x
  | .DivFloat => .Format23x
  | .RemFloat => .Format23x
  | .AddDouble => .Format23x
  | .SubDouble => .Format23x
  | .MulDouble => .Format23x
  | .DivDouble => .Format23x
  | .RemDouble => .Format23x
  | .AddInt2addr => .Format12x
  | .SubInt2addr => .Format12x
  | .MulInt2addr => .Format12x
  | .DivInt2addr => .Format12x
  | .RemInt2addr => .Format12x
  | .AndInt2addr => .Format12x
  | .OrInt2addr => .Format12x
  | .XorInt2addr => .Format12x
  | .ShlInt2addr => .Format12x
  | .ShrInt2addr => .Format12x
  | .UshrInt2addr => .Format12x
  | .AddLong2addr => .Format12x
  | .SubLong2addr => .Format12x
  | .MulLong2addr => .Format12x
  | .DivLong2addr => .Format12x
  | .RemLong2addr => .Format12x
  | .AndLong2addr => .Format12x
  | .OrLong2addr => .Format12x
  | .XorLong2addr => .Format12x
  | .ShlLong2addr => .Format12x
  | .ShrLong2addr => .Format12x
  | .UshrLong2addr => .Format12x
  | .AddFloat2addr => .Format12x
  | .SubFloat2addr => .Format12x
  | .MulFloat2addr => .Format12x
  | .DivFloat2addr => .Format12x
  | .RemFloat2addr => .Format12x
  | .AddDouble2addr => .Format12x
  | .SubDouble2addr => .Format12x
  | .MulDouble2addr => .Format12x
  | .DivDouble2addr => .Format12x
  | .RemDouble2addr => .Format12x
  | .AddIntLit16 => .Format22s
  | .RsubInt => .Format22s
  | .MulIntLit16 => .Format22s
  | .DivIntLit16 => .Format22s
  | .RemIntLit16 => .Format22s
  | .AndIntLit16 => .Format22s
  | .OrIntLit16 => .Format22s
  | .XorIntLit16 => .Format22s
  | .AddIntLit8 => .Format22b
  | .RsubIntLit8 => .Format22b
  | .MulIntLit8 => .Format22b
  | .DivIntLit8 => .Format22b
  | .RemIntLit8 => .Format22b
  | .AndIntLit8 => .Format22b
  | .OrIntLit8 => .Format22b
  | .XorIntLit8 => .Format22b
  | .ShlIntLit8 => .Format22b
  | .ShrIntLit8 => .Format22b
  | .UshrIntLit8 => .Format22b
  | .IgetVolatile => .Format22c
  | .IputVolatile => .Format22c
  | .SgetVolatile => .Format21c
  | .SputVolatile => .Format21c
  | .IgetObjectVolatile => .Format22c
  | .IgetWideVolatile => .Format22c
  | .IputWideVolatile => .Format22c
  | .SgetWideVolatile => .Format21c
  | .SputWideVolatile => .Format21c
  | .ThrowVerificationError => .Format20bc
  | .ExecuteInline => .Format35mi
  | .ExecuteInlineRange => .Format3rmi
  | .InvokeDirectEmpty => .Format35c
  | .InvokeObjectInitRange => .Format3rc
  | .ReturnVoidNoBarrier => .Format10x
  | .InvokeSuperQuick => .Format35ms
  | .InvokeSuperQuickRange => .Format3rms
  | .IputObjectVolatile => .Format22c
  | .SgetObjectVolatile => .Format21c
  | .SputObjectVolatile => .Format21c
  | .PackedSwitchPayload => .PackedSwitchPayload
  | .SparseSwitchPayload => .SparseSwitchPayload
  | .ArrayPayload => .ArrayPayload
  | .InvokePolymorphic => .Format45cc
  | .InvokePolymorphicRange => .Format4rcc
  | .InvokeCustom => .Format35c
  | .InvokeCustomRange => .Format3rc
  | .ConstMethodHandle => .Format21c
  | .ConstMethodType => .Format21c

set_option maxHeartbeats 2000000 in
/-- Opcode::all(): every opcode, in the order of the source vector. -/
def Opcode.all : List Opcode :=
  [ Opcode.Nop,
    Opcode.Move,
    Opcode.MoveFrom16,
    Opcode.Move16,
    Opcode.MoveWide,
    Opcode.MoveWideFrom16,
    Opcode.MoveWide16,
    Opcode.MoveObject,
    Opcode.MoveObjectFrom16,
    Opcode.MoveObject16,
    Opcode.MoveResult,
    Opcode.MoveResultWide,
    Opcode.MoveResultObject,
    Opcode.MoveException,
    Opcode.ReturnVoid,
    Opcode.Return,
    Opcode.ReturnWide,
    Opcode.ReturnObject,
    Opcode.Const4,
    Opcode.Const16,
    Opcode.CONST,
    Opcode.ConstHigh16,
    Opcode.ConstWide16,
    Opcode.ConstWide32,
    Opcode.ConstWide,
    Opcode.ConstWideHigh16,
    Opcode.ConstString,
    Opcode.ConstStringJumbo,
    Opcode.ConstClass,
    Opcode.MonitorEnter,
    Opcode.MonitorExit,
    Opcode.CheckCast,
    Opcode.InstanceOf,
    Opcode.ArrayLength,
    Opcode.NewInstance,
    Opcode.NewArray,
    Opcode.FilledNewArray,
    Opcode.FilledNewArrayRange,
    Opcode.FillArrayData,
    Opcode.THROW,
    Opcode.GOTO,
    Opcode.Goto16,
    Opcode.Goto32,
    Opcode.PackedSwitch,
    Opcode.SparseSwitch,
    Opcode.CmplFloat,
    Opcode.CmpgFloat,
    Opcode.CmplDouble,
    Opcode.CmpgDouble,
    Opcode.CmpLong,
    Opcode.IfEq,
    Opcode.IfNe,
    Opcode.IfLt,
    Opcode.IfGe,
    Opcode.IfGt,
    Opcode.IfLe,
    Opcode.IfEqz,
    Opcode.IfNez,
    Opcode.IfLtz,
    Opcode.IfGez,
    Opcode.IfGtz,
    Opcode.IfLez,
    Opcode.AGET,
    Opcode.AgetWide,
    Opcode.AgetObject,
    Opcode.AgetBoolean,
    Opcode.AgetByte,
    Opcode.AgetChar,
    Opcode.AgetShort,
    Opcode.APUT,
    Opcode.AputWide,
    Opcode.AputObject,
    Opcode.AputBoolean,
    Opcode.AputByte,
    Opcode.AputChar,
    Opcode.AputShort,
    Opcode.IGET,
    Opcode.IgetWide,
    Opcode.IgetObject,
    Opcode.IgetBoolean,
    Opcode.IgetByte,
    Opcode.IgetChar,
    Opcode.IgetShort,
    Opcode.IPUT,
    Opcode.IputWide,
    Opcode.IputObject,
    Opcode.IputBoolean,
    Opcode.IputByte,
    Opcode.IputChar,
    Opcode.IputShort,
    Opcode.SGET,
    Opcode.SgetWide,
    Opcode.SgetObject,
    Opcode.SgetBoolean,
    Opcode.SgetByte,
    Opcode.SgetChar,
    Opcode.SgetShort,
    Opcode.SPUT,
    Opcode.SputWide,
    Opcode.SputObject,
    Opcode.SputBoolean,
    Opcode.SputByte,
    Opcode.SputChar,
    Opcode.SputShort,
    Opcode.InvokeVirtual,
    Opcode.InvokeSuper,
    Opcode.InvokeDirect,
    Opcode.InvokeStatic,
    Opcode.InvokeInterface,
    Opcode.InvokeVirtualRange,
    Opcode.InvokeSuperRange,
    Opcode.InvokeDirectRange,
    Opcode.InvokeStaticRange,
    Opcode.InvokeInterfaceRange,
    Opcode.NegInt,
    Opcode.NotInt,
    Opcode.NegLong,
    Opcode.NotLong,
    Opcode.NegFloat,
    Opcode.NegDouble,
    Opcode.IntToLong,
    Opcode.IntToFloat,
    Opcode.IntToDouble,
    Opcode.LongToInt,
    Opcode.LongToFloat,
    Opcode.LongToDouble,
    Opcode.FloatToInt,
    Opcode.FloatToLong,
    Opcode.FloatToDouble,
    Opcode.DoubleToInt,
    Opcode.DoubleToLong,
    Opcode.DoubleToFloat,
    Opcode.IntToByte,
    Opcode.IntToChar,
    Opcode.IntToShort,
    Opcode.AddInt,
    Opcode.SubInt,
    Opcode.MulInt,
    Opcode.DivInt,
    Opcode.RemInt,
    Opcode.AndInt,
    Opcode.OrInt,
    Opcode.XorInt,
    Opcode.ShlInt,
    Opcode.ShrInt,
    Opcode.UshrInt,
    Opcode.AddLong,
    Opcode.SubLong,
    Opcode.MulLong,
    Opcode.DivLong,
    Opcode.RemLong,
    Opcode.AndLong,
    Opcode.OrLong,
    Opcode.XorLong,
    Opcode.ShlLong,
    Opcode.ShrLong,
    Opcode.UshrLong,
    Opcode.AddFloat,
    Opcode.SubFloat,
    Opcode.MulFloat,
    Opcode.DivFloat,
    Opcode.RemFloat,
    Opcode.AddDouble,
    Opcode.SubDouble,
    Opcode.MulDouble,
    Opcode.DivDouble,
    Opcode.RemDouble,
    Opcode.AddInt2addr,
    Opcode.SubInt2addr,
    Opcode.MulInt2addr,
    Opcode.DivInt2addr,
    Opcode.RemInt2addr,
    Opcode.AndInt2addr,
    Opcode.OrInt2addr,
    Opcode.XorInt2addr,
    Opcode.ShlInt2addr,
    Opcode.ShrInt2addr,
    Opcode.UshrInt2addr,
    Opcode.AddLong2addr,
    Opcode.SubLong2addr,
    Opcode.MulLong2addr,
    Opcode.DivLong2addr,
    Opcode.RemLong2addr,
    Opcode.AndLong2addr,
    Opcode.OrLong2addr,
    Opcode.XorLong2addr,
    Opcode.ShlLong2addr,
    Opcode.ShrLong2addr,
    Opcode.UshrLong2addr,
    Opcode.AddFloat2addr,
    Opcode.SubFloat2addr,
    Opcode.MulFloat2addr,
    Opcode.DivFloat2addr,
    Opcode.RemFloat2addr,
    Opcode.AddDouble2addr,
    Opcode.SubDouble2addr,
    Opcode.MulDouble2addr,
    Opcode.DivDouble2addr,
    Opcode.RemDouble2addr,
    Opcode.AddIntLit16,
    Opcode.RsubInt,
    Opcode.MulIntLit16,
    Opcode.DivIntLit16,
    Opcode.RemIntLit16,
    Opcode.AndIntLit16,
    Opcode.OrIntLit16,
    Opcode.XorIntLit16,
    Opcode.AddIntLit8,
    Opcode.RsubIntLit8,
    Opcode.MulIntLit8,
    Opcode.DivIntLit8,
    Opcode.RemIntLit8,
    Opcode.AndIntLit8,
    Opcode.OrIntLit8,
    Opcode.XorIntLit8,
    Opcode.ShlIntLit8,
    Opcode.ShrIntLit8,
    Opcode.UshrIntLit8,
    Opcode.IgetVolatile,
    Opcode.IputVolatile,
    Opcode.SgetVolatile,
    Opcode.SputVolatile,
    Opcode.IgetObjectVolatile,
    Opcode.IgetWideVolatile,
    Opcode.IputWideVolatile,
    Opcode.SgetWideVolatile,
    Opcode.SputWideVolatile,
    Opcode.ThrowVerificationError,
    Opcode.ExecuteInline,
    Opcode.ExecuteInlineRange,
    Opcode.InvokeDirectEmpty,
    Opcode.InvokeObjectInitRange,
    Opcode.ReturnVoidNoBarrier,
    Opcode.InvokeSuperQuick,
    Opcode.InvokeSuperQuickRange,
    Opcode.IputObjectVolatile,
    Opcode.SgetObjectVolatile,
    Opcode.SputObjectVolatile,
    Opcode.PackedSwitchPayload,
    Opcode.SparseSwitchPayload,
    Opcode.ArrayPayload,
    Opcode.InvokePolymorphic,
    Opcode.InvokePolymorphicRange,
    Opcode.InvokeCustom,
    Opcode.InvokeCustomRange,
    Opcode.ConstMethodHandle,
    Opcode.ConstMethodType ]

/-- The process-wide reverse map VALUE_TO_OPCODE of src/dex/asm/opcode.rs.
Opcode::gen_value_map builds a std HashMap by inserting every opcode of
Opcode::all, in order, keyed by its numeric value; HashMap::insert overwrites
any earlier binding of the same key.  The map is modelled by its insertion
sequence; see lookupKV for HashMap::get. -/
def Opcode.gen_value_map : List (Nat × Opcode) :=
  Opcode.all.map (fun o => (o.value, o))

/-- The lazy_static process-wide reverse map VALUE_TO_OPCODE. -/
def VALUE_TO_OPCODE : List (Nat × Opcode) := Opcode.gen_value_map

/-- HashMap::get on the insertion-sequence model: the binding of the LAST
insert with the given key wins, exactly as each HashMap::insert overwrites
any earlier binding of that key. -/
def lookupKV : List (Nat × Opcode) → Nat → Option Opcode
  | [], _ => none
  | (k', v') :: rest, k =>
    match lookupKV rest k with
    | some r => some r
    | none => if k' = k then some v' else none

/-- The opcodes whose numeric value is also the value of a LATER entry of
Opcode::all, so that the later insert overwrites theirs in the reverse map:
invoke-direct-empty (0xF0, overwritten by invoke-object-init/range) and the
five ODEX opcodes 0xFA..0xFE (overwritten by invoke-polymorphic,
invoke-polymorphic/range, invoke-custom, invoke-custom/range,
const-method-handle). -/
def overwrittenOpcodes : List Opcode :=
  [.InvokeDirectEmpty, .InvokeSuperQuick, .InvokeSuperQuickRange,
   .IputObjectVolatile, .SgetObjectVolatile, .SputObjectVolatile]

/-! ### The bytecode decoder (src/dex/asm/instruction.rs) -/

/-- The Instruction enum of src/dex/asm/instruction.rs: one variant per
implemented format (note both 21ih and 21lh collapse onto Instruction21h,
as in the source), plus the three payload pseudo-instructions.  Operand
slots hold the raw unsigned patterns the source reads (u4/u8/u16/u32/u64
as Nat, one field per tuple slot); the i32 values inside switch payloads
are Int. -/
inductive Instruction where
  | Instruction10x (op : Opcode)
  | Instruction12x (op : Opcode) (a b : Nat)
  | Instruction11n (op : Opcode) (a b : Nat)
  | Instruction11x (op : Opcode) (aa : Nat)
  | Instruction10t (op : Opcode) (aa : Nat)
  | Instruction20t (op : Opcode) (aaaa : Nat)
  | Instruction20bc (op : Opcode) (aa bbbb : Nat)
  | Instruction22x (op : Opcode) (aa bbbb : Nat)
  | Instruction21t (op : Opcode) (aa bbbb : Nat)
  | Instruction21s (op : Opcode) (aa bbbb : Nat)
  | Instruction21h (op : Opcode) (aa bbbb : Nat)
  | Instruction21c (op : Opcode) (aa bbbb : Nat)
  | Instruction23x (op : Opcode) (aa bb cc : Nat)
  | Instruction22b (op : Opcode) (aa bb cc : Nat)
  | Instruction22t (op : Opcode) (a b cccc : Nat)
  | Instruction22s (op : Opcode) (a b cccc : Nat)
  | Instruction22c (op : Opcode) (a b cccc : Nat)
  | Instruction22cs (op : Opcode) (a b cccc : Nat)
  | Instruction30t (op : Opcode) (a : Nat)
  | Instruction32x (op : Opcode) (aaaa bbbb : Nat)
  | Instruction31i (op : Opcode) (aa b : Nat)
  | Instruction31t (op : Opcode) (aa b : Nat)
  | Instruction31c (op : Opcode) (aa b : Nat)
  | Instruction35c (op : Opcode) (a g bbbb f e d c : Nat)
  | Instruction35ms (op : Opcode) (a g bbbb f e d c : Nat)
  | Instruction35mi (op : Opcode) (a g bbbb f e d c : Nat)
  | Instruction3rc (op : Opcode) (aa bbbb cccc : Nat)
  | Instruction3rms (op : Opcode) (aa bbbb cccc : Nat)
  | Instruction3rmi (op : Opcode) (aa bbbb cccc : Nat)
  | Instruction45cc (op : Opcode) (a g bbbb f e d c hhhh : Nat)
  | Instruction4rcc (op : Opcode) (aa bbbb cccc dddd : Nat)
  | Instruction51l (op : Opcode) (aa b : Nat)
  | PackedSwitchPayload (size : Nat) (first_key : Int) (targets : List Int)
  | SparseSwitchPayload (size : Nat) (keys : List Int) (targets : List Int)
  | FillArrayDataPayload (element_width : Nat) (size : Nat) (data : List Nat)
deriving DecidableEq, Repr

/-- The assert_unused_byte! macro (non-trace build): read one byte and
panic via assert_eq! unless it is zero. -/
def passertUnused : PM Unit := do
  let unused ← pu8
  if unused = 0 then pure () else perr .assertFail

/-- Instruction::parse: read the opcode byte (with the two-byte payload
ident escape when it is zero, seeking back one byte for a true nop), look
the value up in VALUE_TO_OPCODE, then dispatch on the opcode's format to
read the operand layout. -/
def parseInstruction : PM Instruction := do
  let b0 ← pu8
  let opcodeValue ←
    if b0 = 0 then do
      let b1 ← pu8
      let v := 256 * b1
      if v = 0 then do
        pseekBack1
        pure v
      else
        pure v
    else
      pure b0
  match lookupKV VALUE_TO_OPCODE opcodeValue with
  | none => perr .generic
  | some op =>
    match op.format with
    | .Format10x => do
      passertUnused
      pure (.Instruction10x op)
    | .Format12x => do
      let ab ← psplitU8
      pure (.Instruction12x op ab.1 ab.2)
    | .Format11n => do
      let ab ← psplitU8
      pure (.Instruction11n op ab.1 ab.2)
    | .Format11x => do
      let aa ← pu8
      pure (.Instruction11x op aa)
    | .Format10t => do
      let aa ← pu8
      pure (.Instruction10t op aa)
    | .Format20t => do
      passertUnused
      let aaaa ← pu16
      pure (.Instruction20t op aaaa)
    | .Format20bc => do
      let aa ← pu8
      let bbbb ← pu16
      pure (.Instruction20bc op aa bbbb)
    | .Format22x => do
      let aa ← pu8
      let bbbb ← pu16
      pure (.Instruction22x op aa bbbb)
    | .Format21t => do
      let aa ← pu8
      let bbbb ← pu16
      pure (.Instruction21t op aa bbbb)
    | .Format21s => do
      let aa ← pu8
      let bbbb ← pu16
      pure (.Instruction21s op aa bbbb)
    | .Format21ih => do
      let aa ← pu8
      let bbbb ← pu16
      pure (.Instruction21h op aa bbbb)
    | .Format21lh => do
      let aa ← pu8
      let bbbb ← pu16
      pure (.Instruction21h op aa bbbb)
    | .Format21c => do
      let aa ← pu8
      let bbbb ← pu16
      pure (.Instruction21c op aa bbbb)
    | .Format23x => do
      let aa ← pu8
      let bb ← pu8
      let cc ← pu8
      pure (.Instruction23x op aa bb cc)
    | .Format22b => do
      let aa ← pu8
      let bb ← pu8
      let cc ← pu8
      pure (.Instruction22b op aa bb cc)
    | .Format22t => do
      let ab ← psplitU8
      let cccc ← pu16
      pure (.Instruction22t op ab.1 ab.2 cccc)
    | .Format22s => do
      let ab ← psplitU8
      let cccc ← pu16
      pure (.Instruction22s op ab.1 ab.2 cccc)
    | .Format22c => do
      let ab ← psplitU8
      let cccc ← pu16
      pure (.Instruction22c op ab.1 ab.2 cccc)
    | .Format22cs => do
      let ab ← psplitU8
      let cccc ← pu16
      pure (.Instruction22cs op ab.1 ab.2 cccc)
    | .Format30t => do
      passertUnused
      let a ← pu32
      pure (.Instruction30t op a)
    | .Format32x => do
      passertUnused
      let aaaa ← pu16
      let bbbb ← pu16
      pure (.Instruction32x op aaaa bbbb)
    | .Format31i => do
      let aa ← pu8
      let b ← pu32
      pure (.Instruction31i op aa b)
    | .Format31t => do
      let aa ← pu8
      let b ← pu32
      pure (.Instruction31t op aa b)
    | .Format31c => do
      let aa ← pu8
      let b ← pu32
      pure (.Instruction31c op aa b)
    | .Format35c => do
      let ag ← psplitU8
      let bbbb ← pu16
      let fe ← psplitU8
      let dc ← psplitU8
      pure (.Instruction35c op ag.1 ag.2 bbbb fe.1 fe.2 dc.1 dc.2)
    | .Format35ms => do
      let ag ← psplitU8
      let bbbb ← pu16
      let fe ← psplitU8
      let dc ← psplitU8
      pure (.Instruction35ms op ag.1 ag.2 bbbb fe.1 fe.2 dc.1 dc.2)
    | .Format35mi => do
      let ag ← psplitU8
      let bbbb ← pu16
      let fe ← psplitU8
      let dc ← psplitU8
      pure (.Instruction35mi op ag.1 ag.2 bbbb fe.1 fe.2 dc.1 dc.2)
    | .Format3rc => do
      let aa ← pu8
      let bbbb ← pu16
      let cccc ← pu16
      pure (.Instruction3rc op aa bbbb cccc)
    | .Format3rms => do
      let aa ← pu8
      let bbbb ← pu16
      let cccc ← pu16
      pure (.Instruction3rms op aa bbbb cccc)
    | .Format3rmi => do
      let aa ← pu8
      let bbbb ← pu16
      let cccc ← pu16
      pure (.Instruction3rmi op aa bbbb cccc)
    | .Format45cc => do
      let ag ← psplitU8
      let bbbb ← pu16
      let fe ← psplitU8
      let dc ← psplitU8
      let hhhh ← pu16
      pure (.Instruction45cc op ag.1 ag.2 bbbb fe.1 fe.2 dc.1 dc.2 hhhh)
    | .Format4rcc => do
      let aa ← pu8
      let bbbb ← pu16
      let cccc ← pu16
      let dddd ← pu16
      pure (.Instruction4rcc op aa bbbb cccc dddd)
    | .Format51l => do
      let aa ← pu8
      let b ← pu64
      pure (.Instruction51l op aa b)
    | .PackedSwitchPayload => do
      let size ← pu16
      let first_key ← pi32
      let targets ← parseListPM pi32 size
      pure (.PackedSwitchPayload size first_key targets)
    | .SparseSwitchPayload => do
      let size ← pu16
      let keys ← parseListPM pi32 size
      let targets ← parseListPM pi32 size
      pure (.SparseSwitchPayload size keys targets)
    | .ArrayPayload => do
      let element_width ← pu16
      let size ← pu32
      let data ← parseListPM pu8 (element_width * size)
      if (element_width * size) % 2 ≠ 0 then do
        let _ ← pu8
        pure (.FillArrayDataPayload element_width size data)
      else
        pure (.FillArrayDataPayload element_width size data)
    | .UnresolvedOdexInstruction => perr .generic

/-- The size of a decoded instruction in 16-bit code units: the format
table's byte size halved for the regular formats, and the self-declared
sizes of the Dalvik specification for the three payloads ((size*2)+4 for
packed-switch, (size*4)+2 for sparse-switch, (size*element_width+1)/2+4
for array data). -/
def Instruction.codeUnits : Instruction → Nat
  | .Instruction10x op => op.format.size.toNat / 2
  | .Instruction12x op _ _ => op.format.size.toNat / 2
  | .Instruction11n op _ _ => op.format.size.toNat / 2
  | .Instruction11x op _ => op.format.size.toNat / 2
  | .Instruction10t op _ => op.format.size.toNat / 2
  | .Instruction20t op _ => op.format.size.toNat / 2
  | .Instruction20bc op _ _ => op.format.size.toNat / 2
  | .Instruction22x op _ _ => op.format.size.toNat / 2
  | .Instruction21t op _ _ => op.format.size.toNat / 2
  | .Instruction21s op _ _ => op.format.size.toNat / 2
  | .Instruction21h op _ _ => op.format.size.toNat / 2
  | .Instruction21c op _ _ => op.format.size.toNat / 2
  | .Instruction23x op _ _ _ => op.format.size.toNat / 2
  | .Instruction22b op _ _ _ => op.format.size.toNat / 2
  | .Instruction22t op _ _ _ => op.format.size.toNat / 2
  | .Instruction22s op _ _ _ => op.format.size.toNat / 2
  | .Instruction22c op _ _ _ => op.format.size.toNat / 2
  | .Instruction22cs op _ _ _ => op.format.size.toNat / 2
  | .Instruction30t op _ => op.format.size.toNat / 2
  | .Instruction32x op _ _ => op.format.size.toNat / 2
  | .Instruction31i op _ _ => op.format.size.toNat / 2
  | .Instruction31t op _ _ => op.format.size.toNat / 2
  | .Instruction31c op _ _ => op.format.size.toNat / 2
  | .Instruction35c op _ _ _ _ _ _ _ => op.format.size.toNat / 2
  | .Instruction35ms op _ _ _ _ _ _ _ => op.format.size.toNat / 2
  | .Instruction35mi op _ _ _ _ _ _ _ => op.format.size.toNat / 2
  | .Instruction3rc op _ _ _ => op.format.size.toNat / 2
  | .Instruction3rms op _ _ _ => op.format.size.toNat / 2
  | .Instruction3rmi op _ _ _ => op.format.size.toNat / 2
  | .Instruction45cc op _ _ _ _ _ _ _ _ => op.format.size.toNat / 2
  | .Instruction4rcc op _ _ _ _ => op.format.size.toNat / 2
  | .Instruction51l op _ _ => op.format.size.toNat / 2
  | .PackedSwitchPayload size _ _ => size * 2 + 4
  | .SparseSwitchPayload size _ _ => size * 4 + 2
  | .FillArrayDataPayload ew size _ => (size * ew + 1) / 2 + 4

/-- Total size of an instruction list in 16-bit code units. -/
def instrListCodeUnits (l : List Instruction) : Nat :=
  (l.map Instruction.codeUnits).sum

/-! ### The CodeItem section decoder (src/dex/types/id.rs) -/

/-- try_item: u32 start_addr, u16 insn_count, u16 handler_off. -/
structure TryItem where
  start_addr : Nat
  insn_count : Nat
  handler_off : Nat
deriving DecidableEq, Repr

/-- TryItem's derived field-by-field parse (no alignment). -/
def TryItem.parse : PM TryItem := do
  let start_addr ← pu32
  let insn_count ← pu16
  let handler_off ← pu16
  pure ⟨start_addr, insn_count, handler_off⟩

/-- encoded_type_addr_pair: two ULEB128s. -/
structure EncodedTypeAddrPair where
  type_idx : Nat
  addr : Nat
deriving DecidableEq, Repr

/-- EncodedTypeAddrPair's derived field-by-field parse. -/
def EncodedTypeAddrPair.parse : PM EncodedTypeAddrPair := do
  let type_idx ← puleb128
  let addr ← puleb128
  pure ⟨type_idx, addr⟩

/-- encoded_catch_handler: SLEB128 size, abs(size) typed pairs, and a
catch-all ULEB128 address iff size is not positive. -/
structure EncodedCatchHandler where
  size : Int
  handlers : List EncodedTypeAddrPair
  catch_all_addr : Option Nat
deriving DecidableEq, Repr

/-- EncodedCatchHandler::parse. -/
def EncodedCatchHandler.parse : PM EncodedCatchHandler := do
  let size ← psleb128
  let handlers ← parseListPM EncodedTypeAddrPair.parse size.natAbs
  if 0 < size then
    pure ⟨size, handlers, none⟩
  else do
    let caa ← puleb128
    pure ⟨size, handlers, some caa⟩

/-- encoded_catch_handler_list: ULEB128 count plus that many handlers. -/
structure EncodedCatchHandlerList where
  size : Nat
  list : List EncodedCatchHandler
deriving DecidableEq, Repr

/-- EncodedCatchHandlerList::parse. -/
def EncodedCatchHandlerList.parse : PM EncodedCatchHandlerList := do
  let size ← puleb128
  let list ← parseListPM EncodedCatchHandler.parse size
  pure ⟨size, list⟩

/-- The CodeItem record as the source stores it (the insns_size header
field is consumed during parsing and not retained). -/
structure CodeItem where
  registers_size : Nat
  ins_size : Nat
  outs_size : Nat
  tries_size : Nat
  debug_info_off : Nat
  insns : List Instruction
  padding : Option Nat
  tries : Option (List TryItem)
  handlers : Option EncodedCatchHandlerList
deriving DecidableEq, Repr

/-- The instruction-reading loop of CodeItem::parse: while the cursor is
below the boundary start + insns_size*2, parse one instruction and append
it.  The fuel argument only bounds the iteration count of the embedding;
each successful Instruction::parse advances the cursor by at least two
bytes, so fuel insns_size*2+1 is never exhausted on a successful run. -/
def insnsLoop (bound : Nat) : Nat → PM (List Instruction)
  | 0 => fun s => if s.pos < bound then .error .fuel else .ok ([], s)
  | fuel + 1 => fun s =>
    if s.pos < bound then
      match parseInstruction s with
      | .ok (i, s1) =>
        match insnsLoop bound fuel s1 with
        | .ok (rest, s2) => .ok (i :: rest, s2)
        | .error e => .error e
      | .error e => .error e
    else
      .ok ([], s)

/-- CodeItem::parse: align to 4; read the fixed header fields; remember
start; read a scratch copy of insns_size*2 raw bytes (a plain Read::read,
which never fails) and seek back; run the instruction loop; then the
optional 2-byte pad (iff tries present and insns_size odd), tries and
handlers; finally pad the cursor to a 4-byte boundary with u8 reads. -/
def CodeItem.parse : PM CodeItem := do
  palign 4
  let registers_size ← pu16
  let ins_size ← pu16
  let outs_size ← pu16
  let tries_size ← pu16
  let debug_info_off ← pu32
  let insns_size ← pu32
  let start_offset ← pgetOffset
  pread (insns_size * 2)
  psetOffset start_offset
  let insns ← insnsLoop (start_offset + insns_size * 2) (insns_size * 2 + 1)
  let pth ←
    if tries_size ≠ 0 then do
      let padding ←
        if insns_size % 2 ≠ 0 then do
          let p ← pu16
          pure (some p)
        else
          pure none
      let tries ← parseListPM TryItem.parse tries_size
      let handlers ← EncodedCatchHandlerList.parse
      pure (padding, some tries, some handlers)
    else
      pure (none, none, none)
  let offset ← pgetOffset
  if offset % 4 > 0 then do
    let _ ← preadExact (4 - offset % 4)
    pure { registers_size, ins_size, outs_size, tries_size, debug_info_off,
           insns, padding := pth.1, tries := pth.2.1, handlers := pth.2.2 }
  else
    pure { registers_size, ins_size, outs_size, tries_size, debug_info_off,
           insns, padding := pth.1, tries := pth.2.1, handlers := pth.2.2 }

/-- A 20-byte stream forming a CodeItem whose header declares
insns_size = 1 (one 16-bit code unit) but whose single instruction is
const-wide/16 (opcode 0x16, format 21s, two code units): the instruction
loop starts below the boundary 18 and ends at 20, past it. -/
def codeItemStraddleBytes : List Nat :=
  [1, 0, 0, 0, 0, 0, 0, 0,
   0, 0, 0, 0, 1, 0, 0, 0,
   0x16, 0x00, 0x00, 0x00]

/-! ### Annotations directory and method handles (src/dex/types/id.rs) -/

/-- field_annotation: field index (u32) and annotation-set offset (u32),
parsed field by field with no alignment. -/
structure FieldAnnotation where
  field_idx : Nat
  annotations_off : Nat
deriving DecidableEq, Repr

/-- FieldAnnotation's derived field-by-field parse. -/
def FieldAnnotation.parse : PM FieldAnnotation := do
  let field_idx ← pu32
  let annotations_off ← pu32
  pure ⟨field_idx, annotations_off⟩

/-- method_annotation: method index (u32) and annotation-set offset (u32). -/
structure MethodAnnotation where
  method_idx : Nat
  annotations_off : Nat
deriving DecidableEq, Repr

/-- MethodAnnotation's derived field-by-field parse. -/
def MethodAnnotation.parse : PM MethodAnnotation := do
  let method_idx ← pu32
  let annotations_off ← pu32
  pure ⟨method_idx, annotations_off⟩

/-- parameter_annotation: method index (u32) and annotation-set-ref-list
offset (u32). -/
structure ParameterAnnotation where
  method_idx : Nat
  annotations_off : Nat
deriving DecidableEq, Repr

/-- ParameterAnnotation's derived field-by-field parse. -/
def ParameterAnnotation.parse : PM ParameterAnnotation := do
  let method_idx ← pu32
  let annotations_off ← pu32
  pure ⟨method_idx, annotations_off⟩

/-- annotations_directory_item as the source stores it. -/
structure AnnotationsDirectoryItem where
  class_annotations_off : Nat
  fields_size : Nat
  annotated_methods_size : Nat
  annotated_parameters_size : Nat
  field_annotations : Option (List FieldAnnotation)
  method_annotations : Option (List MethodAnnotation)
  parameter_annotations : Option (List ParameterAnnotation)
deriving DecidableEq, Repr

/-- AnnotationsDirectoryItem::parse: align to 4, read the offset and the
three counts, then each list via
(count != 0).not().then(|| parse_list(count)).transpose()? — the closure
runs exactly when the NEGATED condition holds, i.e. when the count is
ZERO (parsing an empty list); when the count is nonzero the result is
None and nothing is read. -/
def AnnotationsDirectoryItem.parse : PM AnnotationsDirectoryItem := do
  palign 4
  let class_annotations_off ← pu32
  let fields_size ← pu32
  let annotated_methods_size ← pu32
  let annotated_parameters_size ← pu32
  let field_annotations ←
    if fields_size ≠ 0 then
      pure none
    else do
      let l ← parseListPM FieldAnnotation.parse fields_size
      pure (some l)
  let method_annotations ←
    if annotated_methods_size ≠ 0 then
      pure none
    else do
      let l ← parseListPM MethodAnnotation.parse annotated_methods_size
      pure (some l)
  let parameter_annotations ←
    if annotated_parameters_size ≠ 0 then
      pure none
    else do
      let l ← parseListPM ParameterAnnotation.parse annotated_parameters_size
      pure (some l)
  pure { class_annotations_off, fields_size, annotated_methods_size,
         annotated_parameters_size, field_annotations, method_annotations,
         parameter_annotations }

/-- A 24-byte stream whose AnnotationsDirectoryItem header declares
fields_size = 1, followed by one 8-byte FieldAnnotation entry
(field_idx 5, annotations_off 0x70). -/
def adiOneFieldBytes : List Nat :=
  [0, 0, 0, 0, 1, 0, 0, 0,
   0, 0, 0, 0, 0, 0, 0, 0,
   5, 0, 0, 0, 0x70, 0, 0, 0]

/-- method_handle_item as the source stores it: the raw u16 type code and
the field-or-method id; the two unused u16 fields are read and discarded. -/
structure MethodHandleItem where
  method_handle_type : Nat
  field_or_method_id : Nat
deriving DecidableEq, Repr

/-- MethodHandleItem::parse: align to 4, then u16 type, u16 unused,
u16 field_or_method_id, u16 unused — the type code is stored raw, with no
validation against the defined method-handle type codes. -/
def MethodHandleItem.parse : PM MethodHandleItem := do
  palign 4
  let method_handle_type ← pu16
  let _ ← pu16
  let field_or_method_id ← pu16
  let _ ← pu16
  pure ⟨method_handle_type, field_or_method_id⟩

/-- The private MethodHandleType enum of src/dex/types/id.rs (never used
by MethodHandleItem::parse). -/
inductive MethodHandleType where
  | MethodHandleTypeStaticPut
  | MethodHandleTypeStaticGet
  | MethodHandleTypeInstancePut
  | MethodHandleTypeInstanceGet
  | MethodHandleTypeInvokeStatic
  | MethodHandleTypeInvokeInstance
  | MethodHandleTypeInvokeConstructor
  | MethodHandleTypeInvokeDirect
  | MethodHandleTypeInvokeInterface
deriving DecidableEq, Repr

/-- The match of MethodHandleType::parse on the u16 it reads: values
0x00..0x08 map to the nine defined codes, anything else is an error. -/
def MethodHandleType.ofU16 : Nat → Except PErr MethodHandleType
  | 0 => .ok .MethodHandleTypeStaticPut
  | 1 => .ok .MethodHandleTypeStaticGet
  | 2 => .ok .MethodHandleTypeInstancePut
  | 3 => .ok .MethodHandleTypeInstanceGet
  | 4 => .ok .MethodHandleTypeInvokeStatic
  | 5 => .ok .MethodHandleTypeInvokeInstance
  | 6 => .ok .MethodHandleTypeInvokeConstructor
  | 7 => .ok .MethodHandleTypeInvokeDirect
  | 8 => .ok .MethodHandleTypeInvokeInterface
  | _ => .error .generic

/-- MethodHandleType::parse: read a u16 and validate it. -/
def MethodHandleType.parse : PM MethodHandleType := do
  let v ← pu16
  match MethodHandleType.ofU16 v with
  | .ok t => pure t
  | .error e => perr e

/-! ### Encoded values (src/dex/types/id.rs) -/

/-- The EncodedValue enum of src/dex/types/id.rs.  Byte holds the raw u8
exactly as the source (EncodedValue::Byte(u8)); Short/Int/Long hold the
signed value produced by iN::from_le_bytes on the zero-initialized
buffer; Char holds the u16; Float/Double hold the raw little-endian bit
pattern of the f32/f64 (floating-point values are never computed with);
the index-carrying variants hold the u32. -/
inductive EncodedValue where
  | Byte (v : Nat)
  | Short (v : Int)
  | Char (v : Nat)
  | IntV (v : Int)
  | Long (v : Int)
  | Float (bits : Nat)
  | Double (bits : Nat)
  | MethodType (v : Nat)
  | MethodHandle (v : Nat)
  | StringV (v : Nat)
  | TypeV (v : Nat)
  | Field (v : Nat)
  | Method (v : Nat)
  | EnumV (v : Nat)
  | Array (size : Nat) (values : List EncodedValue)
  | AnnotationV (type_idx : Nat) (size : Nat) (elements : List (Nat × EncodedValue))
  | Null
  | Boolean (b : Bool)

mutual

/-- EncodedValue::parse: read the header byte, split it into value_type
(low five bits) and value_arg (high three bits), check the per-type
constraint on value_arg, then read exactly value_arg + 1 little-endian
payload bytes into the low bytes of a zero-initialized buffer (modelled
by leVal of the bytes read), or recurse for the nested array/annotation
forms.  The fuel argument only bounds the nesting depth of the embedding. -/
def parseEncodedValue : Nat → PM EncodedValue
  | 0 => perr .fuel
  | fuel + 1 => do
    let val ← pu8
    let value_type := val % 32
    let value_arg := val / 32
    match value_type with
    | 0x00 =>
      if value_arg = 0 then do
        let b ← pu8
        pure (.Byte b)
      else perr .generic
    | 0x02 =>
      if value_arg ≤ 1 then do
        let bs ← preadExact (value_arg + 1)
        pure (.Short (sgn 16 (leVal bs)))
      else perr .generic
    | 0x03 =>
      if value_arg ≤ 1 then do
        let bs ← preadExact (value_arg + 1)
        pure (.Char (leVal bs))
      else perr .generic
    | 0x04 =>
      if value_arg ≤ 3 then do
        let bs ← preadExact (value_arg + 1)
        pure (.IntV (sgn 32 (leVal bs)))
      else perr .generic
    | 0x06 =>
      if value_arg ≤ 7 then do
        let bs ← preadExact (value_arg + 1)
        pure (.Long (sgn 64 (leVal bs)))
      else perr .generic
    | 0x10 =>
      if value_arg ≤ 3 then do
        let bs ← preadExact (value_arg + 1)
        pure (.Float (leVal bs))
      else perr .generic
    | 0x11 =>
      if value_arg ≤ 7 then do
        let bs ← preadExact (value_arg + 1)
        pure (.Double (leVal bs))
      else perr .generic
    | 0x15 =>
      if value_arg ≤ 3 then do
        let bs ← preadExact (value_arg + 1)
        pure (.MethodType (leVal bs))
      else perr .generic
    | 0x16 =>
      if value_arg ≤ 3 then do
        let bs ← preadExact (value_arg + 1)
        pure (.MethodHandle (leVal bs))
      else perr .generic
    | 0x17 =>
      if value_arg ≤ 3 then do
        let bs ← preadExact (value_arg + 1)
        pure (.StringV (leVal bs))
      else perr .generic
    | 0x18 =>
      if value_arg ≤ 3 then do
        let bs ← preadExact (value_arg + 1)
        pure (.TypeV (leVal bs))
      else perr .generic
    | 0x19 =>
      if value_arg ≤ 3 then do
        let bs ← preadExact (value_arg + 1)
        pure (.Field (leVal bs))
      else perr .generic
    | 0x1a =>
      if value_arg ≤ 3 then do
        let bs ← preadExact (value_arg + 1)
        pure (.Method (leVal bs))
      else perr .generic
    | 0x1b =>
      if value_arg ≤ 3 then do
        let bs ← preadExact (value_arg + 1)
        pure (.EnumV (leVal bs))
      else perr .generic
    | 0x1c =>
      if value_arg = 0 then do
        let arr ← parseEncodedArray fuel
        pure arr
      else perr .generic
    | 0x1d =>
      if value_arg = 0 then do
        let ann ← parseEncodedAnnotation fuel
        pure ann
      else perr .generic
    | 0x1e =>
      if value_arg = 0 then
        pure .Null
      else perr .generic
    | 0x1f =>
      if value_arg ≤ 1 then
        pure (.Boolean (value_arg = 1))
      else perr .generic
    | _ => perr .generic

/-- EncodedArray::parse: ULEB128 size plus that many encoded values. -/
def parseEncodedArray : Nat → PM EncodedValue
  | 0 => perr .fuel
  | fuel + 1 => do
    let size ← puleb128
    let values ← parseEncodedValueList fuel size
    pure (.Array size values)

/-- parse_list of EncodedValue. -/
def parseEncodedValueList : Nat → Nat → PM (List EncodedValue)
  | 0, _ => perr .fuel
  | _ + 1, 0 => pure []
  | fuel + 1, n + 1 => do
    let v ← parseEncodedValue fuel
    let vs ← parseEncodedValueList fuel n
    pure (v :: vs)

/-- EncodedAnnotation::parse: ULEB128 type index, ULEB128 size, then that
many annotation elements (name index + value). -/
def parseEncodedAnnotation : Nat → PM EncodedValue
  | 0 => perr .fuel
  | fuel + 1 => do
    let type_idx ← puleb128
    let size ← puleb128
    let elements ← parseAnnotationElementList fuel size
    pure (.AnnotationV type_idx size elements)

/-- parse_list of AnnotationElement (ULEB128 name_idx, then the value). -/
def parseAnnotationElementList : Nat → Nat → PM (List (Nat × EncodedValue))
  | 0, _ => perr .fuel
  | _ + 1, 0 => pure []
  | fuel + 1, n + 1 => do
    let name_idx ← puleb128
    let v ← parseEncodedValue fuel
    let vs ← parseAnnotationElementList fuel n
    pure ((name_idx, v) :: vs)

end

/-- The per-type constraint on value_arg as the claim (and spec section
4.6) tabulates it, over the split header byte: value_type t, value_arg a. -/
def specValueArgOk (t a : Nat) : Bool :=
  match t with
  | 0x00 => a = 0
  | 0x02 => a ≤ 1
  | 0x03 => a ≤ 1
  | 0x04 => a ≤ 3
  | 0x06 => a ≤ 7
  | 0x10 => a ≤ 3
  | 0x11 => a ≤ 7
  | 0x15 => a ≤ 3
  | 0x16 => a ≤ 3
  | 0x17 => a ≤ 3
  | 0x18 => a ≤ 3
  | 0x19 => a ≤ 3
  | 0x1a => a ≤ 3
  | 0x1b => a ≤ 3
  | 0x1c => a = 0
  | 0x1d => a = 0
  | 0x1e => a = 0
  | 0x1f => a ≤ 1
  | _ => false

/-- The claim's constraint table applied to a whole header byte
(value_type in bits 0-4, value_arg in bits 5-7). -/
def specHeaderOk (v : Nat) : Bool :=
  specValueArgOk (v % 32) (v / 32)

/-- How many payload bytes follow a conforming non-nested header byte:
value_arg + 1 for the numeric and index-carrying types, none for null and
boolean. -/
def specPayloadLen (v : Nat) : Nat :=
  if v % 32 = 0x1e ∨ v % 32 = 0x1f then 0 else v / 32 + 1

/-- The widened value the claim prescribes for a conforming non-nested
header byte: the payload bytes occupy the low bytes of the
zero-initialized full-width buffer (value = leVal payload), reinterpreted
as signed for short/int/long, kept as the raw u8/u16/u32 or bit pattern
otherwise; the boolean value is the value_arg bit itself. -/
def specWiden (v : Nat) (payload : List Nat) : EncodedValue :=
  match v % 32 with
  | 0x00 => .Byte (leVal payload)
  | 0x02 => .Short (sgn 16 (leVal payload))
  | 0x03 => .Char (leVal payload)
  | 0x04 => .IntV (sgn 32 (leVal payload))
  | 0x06 => .Long (sgn 64 (leVal payload))
  | 0x10 => .Float (leVal payload)
  | 0x11 => .Double (leVal payload)
  | 0x15 => .MethodType (leVal payload)
  | 0x16 => .MethodHandle (leVal payload)
  | 0x17 => .StringV (leVal payload)
  | 0x18 => .TypeV (leVal payload)
  | 0x19 => .Field (leVal payload)
  | 0x1a => .Method (leVal payload)
  | 0x1b => .EnumV (leVal payload)
  | 0x1e => .Null
  | 0x1f => .Boolean (v / 32 = 1)
  | _ => .Null

/-! ### The MUTF-8 string decoder (src/dex/parser/mod.rs) -/

/-- The per-code-unit loop of parse_utf8_bytes_utf16_len_string: produce
len UTF-16 code units by the Java-modified one/two/three-byte decoding,
returning (consumed bytes, code units).  The second argument is the
running offset counter the source reports in BadUtf8 errors.  Note the
second continuation check of the three-byte form tests v1 again (not v2),
exactly as the source does. -/
def mutf8Chars : Nat → Nat → PM (List Nat × List Nat)
  | 0, _ => pure ([], [])
  | len + 1, att => do
    let v0 ← pu8
    if v0 / 16 ≤ 0x07 then
      if v0 = 0 then perr (.badUtf8 v0 att)
      else do
        let p ← mutf8Chars len (att + 1)
        pure (v0 :: p.1, v0 :: p.2)
    else if v0 / 16 = 0x0c ∨ v0 / 16 = 0x0d then do
      let v1 ← pu8
      if v1 &&& 0xc0 ≠ 0x80 then perr (.badUtf8 v1 (att + 1))
      else
        let value := ((v0 &&& 0x1f) <<< 6) ||| (v1 &&& 0x3f)
        if value ≠ 0 ∧ value < 0x80 then perr (.badUtf8 v1 (att + 1))
        else do
          let p ← mutf8Chars len (att + 2)
          pure (v0 :: v1 :: p.1, value :: p.2)
    else if v0 / 16 = 0x0e then do
      let v1 ← pu8
      if v1 &&& 0xc0 ≠ 0x80 then perr (.badUtf8 v1 (att + 1))
      else do
        let v2 ← pu8
        if v1 &&& 0xc0 ≠ 0x80 then perr (.badUtf8 v2 (att + 2))
        else
          let value := ((v0 &&& 0x0f) <<< 12) ||| ((v1 &&& 0x3f) <<< 6) ||| (v2 &&& 0x3f)
          if value < 0x800 then perr (.badUtf8 v2 (att + 2))
          else do
            let p ← mutf8Chars len (att + 3)
            pure (v0 :: v1 :: v2 :: p.1, value :: p.2)
    else perr (.badUtf8 v0 att)

/-- String::from_utf16_lossy on a list of u16 code units (a String is
modelled by its list of UNICODE scalar values): well-formed surrogate
pairs combine into supplementary scalars, every unpaired surrogate half
becomes U+FFFD (decoding then continues from the unit that followed the
unpaired high half), and no input makes the conversion fail. -/
def utf16LossyScalars : List Nat → List Nat
  | [] => []
  | [u] => if u < 0xD800 ∨ 0xE000 ≤ u then [u] else [0xFFFD]
  | u :: v :: rest =>
    if u < 0xD800 ∨ 0xE000 ≤ u then u :: utf16LossyScalars (v :: rest)
    else if u < 0xDC00 then
      if 0xDC00 ≤ v ∧ v < 0xE000 then
        (0x10000 + (u - 0xD800) * 0x400 + (v - 0xDC00)) :: utf16LossyScalars rest
      else
        0xFFFD :: utf16LossyScalars (v :: rest)
    else
      0xFFFD :: utf16LossyScalars (v :: rest)

/-- parse_utf8_bytes_utf16_len_string: run the MUTF-8 loop for len code
units, then build the returned String by the lossy UTF-16 conversion;
the raw consumed bytes are returned unchanged alongside it. -/
def parseString (len : Nat) : PM (List Nat × List Nat) := do
  let p ← mutf8Chars len 0
  pure (p.1, utf16LossyScalars p.2)


/-! ### Theorems settling the claims -/

/-- Applying a parse-monad bind to a state steps through the first
parser's outcome (definitional unfolding lemma for proofs). -/
theorem PM_bind_apply {α β : Type} (m : PM α) (f : α → PM β) (s : PState) :
    (m >>= f) s =
      match m s with
      | .ok (a, s') => f a s'
      | .error e => .error e := rfl

/-- Claim C3 as stated is false: the format table's queryable size for
format 10x is 2 (its size in bytes), not 1 (its size in 16-bit code units
as the claim lists). -/
theorem c3_size_counterexample :
    Format.size .Format10x = 2 ∧ Format.size .Format10x ≠ 1 := by
  constructor
  · rfl
  · decide


/-- Claim C3 amended: the format table's queryable size is the format's
size in BYTES — twice the code-unit count the claim lists (10x/11n/11x/12x
give 2; the 2-unit formats give 4; the 3-unit formats give 6; 45cc/4rcc
give 8; 51l gives 10) — and -1 for the three payload formats (and for the
extra UnresolvedOdexInstruction tag). -/
theorem c3_size_is_twice_code_units (f : Format) :
    Format.size f =
      (if f.payload = true ∨ f = .UnresolvedOdexInstruction then -1
       else 2 * specFormatCodeUnits f) := by
  cases f <;> rfl


set_option maxRecDepth 4000 in
set_option maxHeartbeats 2000000 in
/-- Claim C1 as stated is false: the round-trip through the reverse map
fails for the ODEX-only opcode invoke-super-quick (numeric value 0xFA),
which the map resolves to invoke-polymorphic — the DEX-standard opcode
inserted later with the same value. -/
theorem c1_value_map_counterexample :
    Opcode.InvokeSuperQuick ∈ Opcode.all ∧
    lookupKV VALUE_TO_OPCODE Opcode.InvokeSuperQuick.value = some Opcode.InvokePolymorphic ∧
    lookupKV VALUE_TO_OPCODE Opcode.InvokeSuperQuick.value ≠ some Opcode.InvokeSuperQuick := by
  refine ⟨by decide, by decide, by decide⟩


set_option maxRecDepth 4000 in
set_option maxHeartbeats 16000000 in
/-- Claim C1 amended: the round-trip opcode_table[O.value] == O holds for
every opcode of the table EXCEPT the six whose numeric value collides with
a later entry of Opcode::all (invoke-direct-empty at 0xF0 and the five
ODEX-only opcodes at 0xFA..0xFE); for those the reverse map returns the
later colliding entry instead, since HashMap::insert overwrites and the
last insert wins. -/
theorem c1_value_map_roundtrip (o : Opcode) (h1 : o ∈ Opcode.all)
    (h2 : o ∉ overwrittenOpcodes) :
    lookupKV VALUE_TO_OPCODE o.value = some o := by
  revert h1 h2
  revert o
  decide


set_option maxRecDepth 4000 in
set_option maxHeartbeats 2000000 in
/-- Witness for C1: the round-trip at the concrete opcode nop. -/
theorem c1_value_map_roundtrip_witness :
    lookupKV VALUE_TO_OPCODE Opcode.Nop.value = some Opcode.Nop :=
  c1_value_map_roundtrip Opcode.Nop (by decide) (by decide)

set_option maxRecDepth 8000 in
set_option maxHeartbeats 4000000 in
/-- Claim C2 as stated is false: this 20-byte stream parses successfully
as a CodeItem whose insns_size header field (the u32 at offset 12) is 1,
yet the decoded instruction list is a single const-wide/16 of two code
units — the loop started below the boundary 18 = 16 + 1*2 and consumed
bytes up to offset 20, past it. -/
theorem c2_codeitem_counterexample :
    CodeItem.parse ⟨codeItemStraddleBytes, 0⟩ =
      .ok ({ registers_size := 1, ins_size := 0, outs_size := 0, tries_size := 0,
             debug_info_off := 0,
             insns := [.Instruction21s .ConstWide16 0 0],
             padding := none, tries := none, handlers := none },
           ⟨codeItemStraddleBytes, 20⟩) ∧
    pu32 ⟨codeItemStraddleBytes, 12⟩ = .ok (1, ⟨codeItemStraddleBytes, 16⟩) ∧
    instrListCodeUnits [.Instruction21s .ConstWide16 0 0] = 2 ∧
    (2 : Nat) ≠ 1 := by
  refine ⟨by decide, by decide, by decide, by decide⟩

/-- Claim C2 amended: the instruction-reading loop of CodeItem::parse
stops at the first instruction boundary at or past start + insns_size*2;
on success the final cursor is ≥ that boundary, but it may lie beyond it
(and then the sum of the decoded sizes exceeds insns_size), because
nothing truncates an instruction that straddles the boundary. -/
theorem c2_insns_loop_reaches_boundary :
    ∀ (bound fuel : Nat) (s : PState) (l : List Instruction) (s' : PState),
      insnsLoop bound fuel s = .ok (l, s') → bound ≤ s'.pos := by
  intro bound fuel
  induction fuel with
  | zero =>
    intro s l s' h
    unfold insnsLoop at h
    by_cases hc : s.pos < bound
    · rw [if_pos hc] at h
      cases h
    · rw [if_neg hc] at h
      cases h
      omega
  | succ n ih =>
    intro s l s' h
    unfold insnsLoop at h
    by_cases hc : s.pos < bound
    · rw [if_pos hc] at h
      split at h
      · split at h
        · cases h
          exact ih _ _ _ (by assumption)
        · cases h
      · cases h
    · rw [if_neg hc] at h
      cases h
      omega

set_option maxRecDepth 8000 in
set_option maxHeartbeats 4000000 in
/-- Witness for C2: the loop run inside the counterexample CodeItem
starts at offset 16 with boundary 18 and stops at offset 20 ≥ 18. -/
theorem c2_insns_loop_reaches_boundary_witness :
    insnsLoop 18 3 ⟨codeItemStraddleBytes, 16⟩ =
      .ok ([.Instruction21s .ConstWide16 0 0], ⟨codeItemStraddleBytes, 20⟩) ∧
    (18 : Nat) ≤ 20 := by
  refine ⟨by decide, c2_insns_loop_reaches_boundary 18 3 ⟨codeItemStraddleBytes, 16⟩
    [.Instruction21s .ConstWide16 0 0] ⟨codeItemStraddleBytes, 20⟩ (by decide)⟩

/-- Claim C4 is what the source intends (its doc links the DEX format,
where each annotation list is present iff its count is nonzero), but the
code inverts the condition: with fields_size = 1 and a FieldAnnotation
entry following, the parser returns None for field_annotations, reads
ZERO entries, and stops at offset 16 — the entry bytes are never
consumed; the zero counts conversely yield Some [] . -/
theorem c4_annotations_directory_inverted :
    AnnotationsDirectoryItem.parse ⟨adiOneFieldBytes, 0⟩ =
      .ok ({ class_annotations_off := 0, fields_size := 1,
             annotated_methods_size := 0, annotated_parameters_size := 0,
             field_annotations := none, method_annotations := some [],
             parameter_annotations := some [] },
           ⟨adiOneFieldBytes, 16⟩) ∧
    adiOneFieldBytes.length = 24 := by
  refine ⟨by decide, by decide⟩

/-- Claim C9: MethodHandleItem::parse succeeds for every u16 value of
method_handle_type, including values greater than 8, storing the raw u16
and discarding the two unused u16s — it fails only when the byte reads
themselves fail; the validating MethodHandleType match, by contrast,
rejects every value above 8. -/
theorem c9_method_handle_item_unvalidated :
    ∀ (b0 b1 b2 b3 b4 b5 b6 b7 : Nat) (rest : List Nat),
      MethodHandleItem.parse ⟨b0 :: b1 :: b2 :: b3 :: b4 :: b5 :: b6 :: b7 :: rest, 0⟩ =
        .ok ({ method_handle_type := b0 + 256 * b1, field_or_method_id := b4 + 256 * b5 },
             ⟨b0 :: b1 :: b2 :: b3 :: b4 :: b5 :: b6 :: b7 :: rest, 8⟩) ∧
      (∀ v : Nat, 8 < v → MethodHandleType.ofU16 v = .error .generic) := by
  intro b0 b1 b2 b3 b4 b5 b6 b7 rest
  constructor
  · rfl
  · intro v hv
    obtain ⟨k, rfl⟩ : ∃ k, v = k + 9 := ⟨v - 9, by omega⟩
    rfl

/-- Witness for C9: a method handle item whose type code 9 is outside the
defined range parses successfully, while the unused validator rejects 9. -/
theorem c9_method_handle_item_unvalidated_witness :
    MethodHandleItem.parse ⟨[9, 0, 0, 0, 7, 0, 0, 0], 0⟩ =
      .ok ({ method_handle_type := 9 + 256 * 0, field_or_method_id := 7 + 256 * 0 },
           ⟨[9, 0, 0, 0, 7, 0, 0, 0], 8⟩) ∧
    MethodHandleType.ofU16 9 = .error .generic := by
  have h := c9_method_handle_item_unvalidated 9 0 0 0 7 0 0 0 []
  exact ⟨h.1, h.2 9 (by decide)⟩

/-- Claim C6 as stated is false in its only-if direction: the header byte
0x02 (value_type short, value_arg 0) satisfies the constraint table, yet
parsing fails because the stream ends before the single payload byte —
failure does not imply a header violation. -/
theorem c6_encoded_value_counterexample :
    specHeaderOk 0x02 = true ∧
    parseEncodedValue 1 ⟨[0x02], 0⟩ = .error .truncation := by
  exact ⟨rfl, rfl⟩

set_option maxHeartbeats 16000000 in
/-- Claim C6 amended: a header byte violating the per-type constraint
table always makes the parse fail; conversely, for the non-nested value
types, a conforming header with enough remaining bytes makes the parse
succeed, reading exactly value_arg + 1 little-endian payload bytes into
the low bytes of the widened value (none for null/boolean) — but a
conforming header can still fail on a truncated stream (or, for the
nested array/annotation types, on a failing nested parse). -/
theorem c6_encoded_value_constraint_table :
    (∀ (v : Nat) (rest : List Nat) (fuel : Nat),
        v < 256 → specHeaderOk v = false →
        parseEncodedValue (fuel + 1) ⟨v :: rest, 0⟩ = .error .generic) ∧
    (∀ (v b0 b1 b2 b3 b4 b5 b6 b7 : Nat) (tail : List Nat) (fuel : Nat),
        v < 256 → specHeaderOk v = true → v % 32 ≠ 0x1c → v % 32 ≠ 0x1d →
        parseEncodedValue (fuel + 1)
            ⟨v :: b0 :: b1 :: b2 :: b3 :: b4 :: b5 :: b6 :: b7 :: tail, 0⟩ =
          .ok (specWiden v (([b0, b1, b2, b3, b4, b5, b6, b7] : List Nat).take (specPayloadLen v)),
               ⟨v :: b0 :: b1 :: b2 :: b3 :: b4 :: b5 :: b6 :: b7 :: tail,
                1 + specPayloadLen v⟩)) := by
  constructor
  · intro v rest fuel hv hok
    interval_cases v <;> first
      | rfl
      | exact absurd hok (by decide)
  · intro v b0 b1 b2 b3 b4 b5 b6 b7 tail fuel hv hok h1c h1d
    interval_cases v <;> first
      | rfl
      | exact absurd hok (by decide)
      | exact absurd rfl h1c
      | exact absurd rfl h1d

/-- Witness for C6: header 0x20 (value_type 0, value_arg 1) violates the
table and fails; header 0x22 (short, value_arg 1) with payload FF 01
succeeds, consuming exactly two payload bytes. -/
theorem c6_encoded_value_constraint_table_witness :
    parseEncodedValue 1 ⟨[0x20], 0⟩ = .error .generic ∧
    parseEncodedValue 1 ⟨[0x22, 0xFF, 0x01, 0, 0, 0, 0, 0, 0], 0⟩ =
      .ok (specWiden 0x22 (([0xFF, 0x01, 0, 0, 0, 0, 0, 0] : List Nat).take (specPayloadLen 0x22)),
           ⟨[0x22, 0xFF, 0x01, 0, 0, 0, 0, 0, 0], 1 + specPayloadLen 0x22⟩) := by
  exact ⟨c6_encoded_value_constraint_table.1 0x20 [] 0 (by decide) (by decide),
         c6_encoded_value_constraint_table.2 0x22 0xFF 0x01 0 0 0 0 0 0 [] 0
           (by decide) (by decide) (by decide) (by decide)⟩

/-- Claim C7 as stated is false: the parser stores the raw unsigned
payload byte — header 0x00 followed by 0xFF yields Byte(255), and 255 is
not the signed value -1 the claim prescribes (EncodedValue::Byte holds a
u8 and no sign-extension is performed). -/
theorem c7_byte_value_counterexample :
    parseEncodedValue 1 ⟨[0x00, 0xFF], 0⟩ =
      .ok (.Byte 255, ⟨[0x00, 0xFF], 2⟩) ∧
    ((255 : Int) ≠ -1) := by
  exact ⟨rfl, by decide⟩

/-- Claim C7 amended: header 0x00 (byte, value_arg 0) followed by 0xFF
decodes to Byte(0xFF), the raw unsigned payload byte; the signed
two's-complement reading of that byte would be -1, but the code keeps
the u8 unchanged. -/
theorem c7_byte_value_raw :
    parseEncodedValue 1 ⟨[0x00, 0xFF], 0⟩ =
      .ok (.Byte 0xFF, ⟨[0x00, 0xFF], 2⟩) ∧
    sgn 8 0xFF = -1 := by
  exact ⟨rfl, by decide⟩

/-- Claim C5 is right about the intended decoding, but the code tests the
SECOND byte's continuation bits twice and never checks the third byte:
the three-byte sequence E8 80 41, whose third byte 0x41 is not a
continuation byte, decodes successfully to the code unit 0x8001 instead
of failing — while a bad second byte (E8 41 80) does fail with BadUtf8
as the claim describes. -/
theorem c5_third_byte_unchecked :
    parseString 1 ⟨[0xE8, 0x80, 0x41], 0⟩ =
      .ok (([0xE8, 0x80, 0x41], [0x8001]), ⟨[0xE8, 0x80, 0x41], 3⟩) ∧
    (0x41 &&& 0xC0 ≠ 0x80) ∧
    parseString 1 ⟨[0xE8, 0x41, 0x80], 0⟩ = .error (.badUtf8 0x41 1) := by
  refine ⟨by decide, by decide, by decide⟩

/-- Claim C10: once the MUTF-8 loop has produced its code units, the
returned string is built by the total lossy UTF-16 conversion — the
construction itself never fails, the captured raw bytes are returned
unchanged, and any unpaired surrogate half becomes U+FFFD. -/
theorem c10_lossy_string_total :
    (∀ (s s' : PState) (len : Nat) (bytes chars : List Nat),
        mutf8Chars len 0 s = .ok ((bytes, chars), s') →
        parseString len s = .ok ((bytes, utf16LossyScalars chars), s')) ∧
    (∀ u : Nat, 0xD800 ≤ u → u < 0xE000 → utf16LossyScalars [u] = [0xFFFD]) := by
  constructor
  · intro s s' len bytes chars h
    unfold parseString
    rw [PM_bind_apply, h]
    rfl
  · intro u h1 h2
    unfold utf16LossyScalars
    rw [if_neg (by omega)]

/-- Witness for C10: the CESU-8 bytes ED A0 80 decode (per-half) to the
lone high surrogate D800, whose lossy conversion is U+FFFD. -/
theorem c10_lossy_string_total_witness :
    parseString 1 ⟨[0xED, 0xA0, 0x80], 0⟩ =
      .ok (([0xED, 0xA0, 0x80], utf16LossyScalars [0xD800]), ⟨[0xED, 0xA0, 0x80], 3⟩) ∧
    utf16LossyScalars [0xD800] = [0xFFFD] := by
  exact ⟨c10_lossy_string_total.1 ⟨[0xED, 0xA0, 0x80], 0⟩ ⟨[0xED, 0xA0, 0x80], 3⟩ 1
           [0xED, 0xA0, 0x80] [0xD800] (by decide),
         c10_lossy_string_total.2 0xD800 (by decide) (by decide)⟩

/-- Claim C8 as stated is false: a six-byte ULEB128 encoding of 0 (five
continuation bytes 0x80 followed by 0x00) is accepted and decodes to 0;
an encoding longer than five bytes does not by itself raise an error. -/
theorem c8_uleb128_counterexample :
    puleb128 ⟨[0x80, 0x80, 0x80, 0x80, 0x80, 0x00], 0⟩ =
      .ok (0, ⟨[0x80, 0x80, 0x80, 0x80, 0x80, 0x00], 6⟩) ∧
    (([0x80, 0x80, 0x80, 0x80, 0x80] : List Nat).all (fun b => 128 ≤ b) = true) := by
  refine ⟨by decide, by decide⟩

/-- Claim C8 amended: the ULEB128 reader fails exactly when the
accumulated value of the encoding at the cursor does not fit into u32
(or the stream ends inside the encoding); the encoded length itself is
not checked, so redundant continuation bytes with zero payload are
accepted. -/
theorem c8_uleb128_u32_fit :
    ∀ (s : PState) (v n : Nat),
      ulebCore (s.data.drop s.pos) = .ok (v, n) →
      puleb128 s =
        (if v < 2 ^ 32 then .ok (v, ⟨s.data, s.pos + n⟩) else .error .generic) := by
  intro s v n h
  unfold puleb128
  rw [h]

/-- Witness for C8: a six-byte encoding whose value 2^39 exceeds u32
makes the reader fail. -/
theorem c8_uleb128_u32_fit_witness :
    puleb128 ⟨[0x80, 0x80, 0x80, 0x80, 0x80, 0x10], 0⟩ = .error .generic := by
  have h := c8_uleb128_u32_fit ⟨[0x80, 0x80, 0x80, 0x80, 0x80, 0x10], 0⟩
    549755813888 6 (by decide)
  rw [if_neg (by norm_num)] at h
  exact h
